import Mathlib

/-!
Verification development for the invoice generator repository.

The development shallowly embeds the PDF-rendering core of the repository:
the rich render function `generateInvoice` (the variant with a status badge
and a payment-information section) and the simpler render function from the
server actions module, together with the shared date formatter
`formatDate` from `app/utils/format-utils.ts`.

Coordinates and money amounts are modelled as rationals; the drawing calls
made against the pdf-lib page object are modelled as an ordered list of
drawing primitives.  JavaScript string methods used by the source
(`split`, `trim`, `toUpperCase`) are modelled by structurally recursive
functions over the character list of a string, faithful to their behavior
on the ASCII inputs the program handles.
-/

/-- Model of the JavaScript `String.prototype.split` with a single
separator character: splitting the character list on `c`, where the empty
string yields `[""]`, matching JS `"".split(sep)`. -/
def jsSplitAux (c : Char) : List Char → List (List Char)
  | [] => [[]]
  | ch :: rest =>
    let r := jsSplitAux c rest
    if ch = c then [] :: r
    else
      match r with
      | [] => [[ch]]
      | h :: t => (ch :: h) :: t

/-- JS `s.split(c)` for a one-character separator. -/
def jsSplit (s : String) (c : Char) : List String :=
  (jsSplitAux c s.data).map (fun l => ⟨l⟩)

/-- Model of JS `String.prototype.toUpperCase` on ASCII data. -/
def jsToUpper (s : String) : String :=
  ⟨s.data.map Char.toUpper⟩

/-- Model of JS `String.prototype.trim`: strip whitespace from both ends. -/
def jsTrim (s : String) : String :=
  ⟨((s.data.dropWhile Char.isWhitespace).reverse.dropWhile Char.isWhitespace).reverse⟩

/-- The fixed English month-name table of `format-utils.ts` (and of the
footer of the rich render function). -/
def monthNames : List String :=
  ["January", "February", "March", "April", "May", "June",
   "July", "August", "September", "October", "November", "December"]

/-- JS `monthNames[month]` interpolated into a template literal: an
out-of-range index stringifies to "undefined". -/
def monthName (m : Nat) : String :=
  monthNames.getD m ("undefined")

/-- Well-formed date inputs accepted by `formatDate`.  These model the two
string shapes the specification names: date-only strings (parsed by the JS
`Date` constructor as UTC midnight) and full timestamps, which carry a
time of day and either an explicit UTC offset in minutes or, when `none`,
the local zone of the environment. -/
inductive DateInput where
  | dateOnly (year : Int) (month day : Nat)
  | timestamp (year : Int) (month day hour minute second : Nat) (offsetMin : Option Int)
deriving DecidableEq, Repr

/-- Days since the Unix epoch of a civil date, after Howard Hinnant.
Used to model the arithmetic the JS `Date` object performs. -/
def daysFromCivil (y0 : Int) (m d : Nat) : Int :=
  let y : Int := if m ≤ 2 then y0 - 1 else y0
  let era : Int := y.ediv 400
  let yoe : Int := y - era * 400
  let mp : Int := if 2 < m then (m : Int) - 3 else (m : Int) + 9
  let doy : Int := (153 * mp + 2).ediv 5 + (d : Int) - 1
  let doe : Int := yoe * 365 + yoe.ediv 4 - yoe.ediv 100 + doy
  era * 146097 + doe - 719468

/-- Civil date (year, month 1..12, day 1..31) of a number of days since
the Unix epoch, after Howard Hinnant. -/
def civilFromDays (z0 : Int) : Int × Nat × Nat :=
  let z : Int := z0 + 719468
  let era : Int := z.ediv 146097
  let doe : Int := z - era * 146097
  let yoe : Int := (doe - doe.ediv 1460 + doe.ediv 36524 - doe.ediv 146096).ediv 365
  let y : Int := yoe + era * 400
  let doy : Int := doe - (365 * yoe + yoe.ediv 4 - yoe.ediv 100)
  let mp : Int := (5 * doy + 2).ediv 153
  let d : Int := doy - (153 * mp + 2).ediv 5 + 1
  let m : Int := if mp < 10 then mp + 3 else mp - 9
  (if m ≤ 2 then y + 1 else y, m.toNat, d.toNat)

/-- Epoch milliseconds of a parsed date input, in an environment whose
local zone is `envOffsetMin` minutes east of UTC.  Date-only forms are
taken as UTC midnight; timestamps are taken in their carried offset, or in
the environment zone when they carry none — the ECMAScript parse rules the
repository relies on through `new Date(dateString)`. -/
def parseEpochMs (envOffsetMin : Int) : DateInput → Int
  | .dateOnly y m d => daysFromCivil y m d * 86400000
  | .timestamp y m d hh mi ss off =>
    let wallMs : Int :=
      daysFromCivil y m d * 86400000 + ((hh : Int) * 3600 + (mi : Int) * 60 + (ss : Int)) * 1000
    wallMs - (off.getD envOffsetMin) * 60000

/-- The local calendar day number (days since epoch, in the local zone) of
a parsed date input: this is what the `getMonth`, `getDate` and
`getFullYear` local accessors of the JS `Date` object are computed from. -/
def localDayNumber (envOffsetMin : Int) (v : DateInput) : Int :=
  (parseEpochMs envOffsetMin v + envOffsetMin * 60000).ediv 86400000

/-- Renders a civil triple the way `formatDate` assembles its result:
month name from the 0-based table, then day and year as plain decimal
integers. -/
def formatCivil : Int × Nat × Nat → String
  | (y, m, d) => monthName (m - 1) ++ " " ++ toString d ++ ", " ++ toString y

/-- Embedding of `formatDate` from `app/utils/format-utils.ts`: parse the
input with the `Date` constructor, read the local calendar fields, and
format them with the fixed English month table. -/
def formatDate (envOffsetMin : Int) (v : DateInput) : String :=
  formatCivil (civilFromDays (localDayNumber envOffsetMin v))

/-- Model of JS `value.toFixed(2)` on the non-negative amounts the program
renders: round to two decimal places, half away from zero upward. -/
def toFixed2 (q : ℚ) : String :=
  let n : Int := ⌊q * 100 + 1 / 2⌋
  let whole : Int := n.ediv 100
  let frac : Nat := (n.emod 100).toNat
  toString whole ++ "." ++ (if frac < 10 then "0" ++ toString frac else toString frac)

/-- A line item of an invoice record, as consumed by the render
functions. -/
structure LineItem where
  description : String
  quantity : Nat
  unitPrice : ℚ
deriving DecidableEq, Repr

/-- The invoice record consumed by both render functions (the relevant
fields of the `InvoiceData` type). -/
structure InvoiceData where
  invoiceNumber : String
  invoiceDate : DateInput
  dueDate : DateInput
  companyName : String
  companyAddress : String
  companyEmail : String
  companyPhone : String
  clientName : String
  clientAddress : String
  clientEmail : String
  notes : Option String := none
  totalAmount : Option ℚ := none
  status : Option String := none
  lineItems : List LineItem
deriving DecidableEq, Repr

/-- An rgb color as passed to pdf-lib. -/
structure Color where
  r : ℚ
  g : ℚ
  b : ℚ
deriving DecidableEq, Repr

/-- The `rgb` constructor of pdf-lib. -/
def rgb (r g b : ℚ) : Color := ⟨r, g, b⟩

/-- The two embedded font faces. -/
inductive Font where
  | regular
  | bold
deriving DecidableEq, Repr

/-- A drawing primitive: one call to `page.drawText`, `page.drawRectangle`
or `page.drawLine`, in the order the render function issues them. -/
inductive Prim where
  | text (x y : ℚ) (str : String) (size : ℚ) (font : Font) (color : Color)
  | rect (x y w h : ℚ) (color : Color) (borderColor : Option Color) (borderWidth : Option ℚ)
  | line (x1 y1 x2 y2 : ℚ) (thickness : ℚ) (color : Color)
deriving DecidableEq, Repr

/-- The string carried by a text primitive; other primitives yield "". -/
def textOf : Prim → String
  | .text _ _ s _ _ _ => s
  | _ => ""

/-- Page width of the single A4 page, from `addPage([595.28, 841.89])`. -/
def pageWidth : ℚ := 595.28

/-- Page height of the single A4 page. -/
def pageHeight : ℚ := 841.89

/-- Left-to-right running sum of `quantity * unitPrice` over the line
items, as computed by `lineItems.reduce((sum, item) => sum + item.quantity * item.unitPrice, 0)`. -/
def lineItemsTotal (items : List LineItem) : ℚ :=
  items.foldl (fun sum item => sum + (item.quantity : ℚ) * item.unitPrice) 0

/-- The assignment at the top of the rich render function: when the record
carries no `totalAmount`, the computed line-item sum is written into the
record (a visible mutation of the caller record); otherwise the record is
left as is. -/
def applyTotalDefault (d : InvoiceData) : InvoiceData :=
  if d.totalAmount = none then
    { d with totalAmount := some (lineItemsTotal d.lineItems) }
  else d

/-- The status string the rich render function displays, from
`data.status?.toUpperCase() || "UNPAID"`: uppercase of the stored status,
or the literal "UNPAID" when the status is absent (or uppercases to the
empty string, which is falsy in JS). -/
def statusDisplay (status : Option String) : String :=
  match status with
  | none => "UNPAID"
  | some s => if jsToUpper s = "" then "UNPAID" else jsToUpper s

/-- The badge fill color: green when the displayed status is "PAID", red
otherwise. -/
def statusColor (status : Option String) : Color :=
  if statusDisplay status = "PAID" then rgb 0.2 0.7 0.2 else rgb 0.8 0.2 0.2

/-- Text runs of a list of lines stacked downward from `baseY` in steps of
15 units, line `index` at `baseY - index * 15`, as both render functions
do for address lines. -/
def stackedTextPrims (x baseY : ℚ) : List String → Nat → List Prim
  | [], _ => []
  | s :: rest, i =>
    Prim.text x (baseY - (i : ℚ) * 15) s 10 .regular (rgb 0 0 0)
      :: stackedTextPrims x baseY rest (i + 1)

/-- The company address split on newline characters. -/
def companyAddressLines (d : InvoiceData) : List String :=
  jsSplit d.companyAddress '\n'

/-- The client address split on newline characters. -/
def clientAddressLines (d : InvoiceData) : List String :=
  jsSplit d.clientAddress '\n'

/-- Vertical position of the company email line: flowed directly below
the last company address line. -/
def companyEmailY (d : InvoiceData) : ℚ :=
  pageHeight - 110 - ((companyAddressLines d).length : ℚ) * 15

/-- Vertical position of the company phone line, one line height below
the email line. -/
def companyPhoneY (d : InvoiceData) : ℚ :=
  pageHeight - 125 - ((companyAddressLines d).length : ℚ) * 15

/-- Vertical position of the client email line, flowed directly below the
last client address line. -/
def clientEmailY (d : InvoiceData) : ℚ :=
  pageHeight - 215 - ((clientAddressLines d).length : ℚ) * 15

/-- Header band of the rich variant: dark full-width rectangle and the
title text. -/
def headerPrims : List Prim :=
  [ .rect 0 (pageHeight - 80) pageWidth 80 (rgb 0.2 0.2 0.2) none none,
    .text 50 (pageHeight - 50) "INVOICE" 24 .bold (rgb 1 1 1) ]

/-- Company block of the rich variant: name, stacked address lines, email
line, phone line. -/
def companyPrims (d : InvoiceData) : List Prim :=
  Prim.text 50 (pageHeight - 90) d.companyName 12 .bold (rgb 0 0 0)
    :: (stackedTextPrims 50 (pageHeight - 110) (companyAddressLines d) 0
      ++ [ .text 50 (companyEmailY d) ("Email: " ++ d.companyEmail) 10 .regular (rgb 0 0 0),
           .text 50 (companyPhoneY d) ("Phone: " ++ d.companyPhone) 10 .regular (rgb 0 0 0) ])

/-- The status badge rectangle of the rich variant. -/
def statusRectPrim (d : InvoiceData) : Prim :=
  .rect (pageWidth - 150) (pageHeight - 145) 70 18 (statusColor d.status)
    (some (rgb 0.8 0.8 0.8)) (some 1)

/-- The status badge text of the rich variant, drawn after the badge
rectangle. -/
def statusTextPrim (d : InvoiceData) : Prim :=
  .text (pageWidth - 145) (pageHeight - 135) (statusDisplay d.status) 10 .bold (rgb 1 1 1)

/-- The right-aligned invoice-meta column before the status badge:
invoice number, formatted dates, and the "Status:" label. -/
def metaPrefixPrims (env : Int) (d : InvoiceData) : List Prim :=
  [ .text (pageWidth - 200) (pageHeight - 90) ("Invoice #: " ++ d.invoiceNumber) 10 .regular (rgb 0 0 0),
    .text (pageWidth - 200) (pageHeight - 105) ("Date: " ++ formatDate env d.invoiceDate) 10 .regular (rgb 0 0 0),
    .text (pageWidth - 200) (pageHeight - 120) ("Due Date: " ++ formatDate env d.dueDate) 10 .regular (rgb 0 0 0),
    .text (pageWidth - 200) (pageHeight - 135) "Status:" 10 .regular (rgb 0 0 0) ]

/-- The whole invoice-meta block of the rich variant, ending with the
badge rectangle immediately followed by the badge text. -/
def metaPrims (env : Int) (d : InvoiceData) : List Prim :=
  [ .text (pageWidth - 200) (pageHeight - 90) ("Invoice #: " ++ d.invoiceNumber) 10 .regular (rgb 0 0 0),
    .text (pageWidth - 200) (pageHeight - 105) ("Date: " ++ formatDate env d.invoiceDate) 10 .regular (rgb 0 0 0),
    .text (pageWidth - 200) (pageHeight - 120) ("Due Date: " ++ formatDate env d.dueDate) 10 .regular (rgb 0 0 0),
    .text (pageWidth - 200) (pageHeight - 135) "Status:" 10 .regular (rgb 0 0 0),
    statusRectPrim d,
    statusTextPrim d ]

/-- The full-width divider line under the header area. -/
def headerDividerPrim : Prim :=
  .line 50 (pageHeight - 150) (pageWidth - 50) (pageHeight - 150) 2 (rgb 0.8 0.8 0.8)

/-- Client block: label, client name, stacked address lines, email line. -/
def clientPrims (d : InvoiceData) : List Prim :=
  Prim.text 50 (pageHeight - 180) "BILL TO:" 12 .bold (rgb 0.4 0.4 0.4)
    :: Prim.text 50 (pageHeight - 200) d.clientName 10 .bold (rgb 0 0 0)
    :: (stackedTextPrims 50 (pageHeight - 215) (clientAddressLines d) 0
      ++ [ .text 50 (clientEmailY d) ("Email: " ++ d.clientEmail) 10 .regular (rgb 0 0 0) ])

/-- Top of the line-item table. -/
def tableTop : ℚ := pageHeight - 280

/-- Left edge of the line-item table. -/
def tableLeft : ℚ := 50

/-- Right edge of the line-item table. -/
def tableRight : ℚ := pageWidth - 50

/-- Table header of the rich variant: dark header rectangle and the four
column labels (column widths 280, 70, 80, 90). -/
def tableHeaderPrims : List Prim :=
  [ .rect tableLeft (tableTop - 25) (tableRight - tableLeft) 25 (rgb 0.2 0.2 0.2)
      (some (rgb 0.1 0.1 0.1)) (some 1),
    .text (tableLeft + 10) (tableTop - 15) "Description" 12 .bold (rgb 1 1 1),
    .text (tableLeft + 280 + 10) (tableTop - 15) "Quantity" 12 .bold (rgb 1 1 1),
    .text (tableLeft + 280 + 70 + 10) (tableTop - 15) "Unit Price" 12 .bold (rgb 1 1 1),
    .text (tableLeft + 280 + 70 + 80 + 10) (tableTop - 15) "Amount" 12 .bold (rgb 1 1 1) ]

/-- The light banding rectangle drawn behind a table row whose text
baseline sits at `y`. -/
def bandRectPrim (y : ℚ) : Prim :=
  .rect tableLeft (y - 15 + 5) (tableRight - tableLeft) 25 (rgb 0.97 0.97 0.97) none none

/-- One table row at baseline `y` with zero-based index `i`: the banding
rectangle on even indices, then the four cell texts; the amount cell is
recomputed as quantity times unit price. -/
def rowPrims (item : LineItem) (i : Nat) (y : ℚ) : List Prim :=
  (if i % 2 = 0 then [bandRectPrim y] else [])
    ++ [ .text (tableLeft + 10) y item.description 10 .regular (rgb 0 0 0),
         .text (tableLeft + 280 + 10) y (toString item.quantity) 10 .regular (rgb 0 0 0),
         .text (tableLeft + 280 + 70 + 10) y ("$" ++ toFixed2 item.unitPrice) 10 .regular (rgb 0 0 0),
         .text (tableLeft + 280 + 70 + 80 + 10) y
           ("$" ++ toFixed2 ((item.quantity : ℚ) * item.unitPrice)) 10 .regular (rgb 0 0 0) ]

/-- The table rows from index `i` down the page starting at baseline `y`,
advancing the running cursor by 25 units per row. -/
def rowsFrom : List LineItem → Nat → ℚ → List Prim
  | [], _, _ => []
  | item :: rest, i, y => rowPrims item i y ++ rowsFrom rest (i + 1) (y - 25)

/-- All line-item rows: the forEach loop over `data.lineItems`, starting
at `tableTop - 45` with index 0. -/
def tableRowPrims (items : List LineItem) : List Prim :=
  rowsFrom items 0 (tableTop - 45)

/-- The running cursor position at the subtotal line: 25 units per row
below the first row baseline, plus the 5-unit gap before the totals. -/
def totalsStartY (d : InvoiceData) : ℚ :=
  tableTop - 45 - 25 * (d.lineItems.length : ℚ) - 5

/-- The fixed tax rate of the totals section. -/
def taxRate : ℚ := 0.05

/-- The subtotal value the rich render function displays: the (possibly
just defaulted) `totalAmount` of the record, or 0 when still absent. -/
def renderedSubtotal (d : InvoiceData) : ℚ :=
  ((applyTotalDefault d).totalAmount).getD 0

/-- The tax amount the rich render function displays. -/
def renderedTaxAmount (d : InvoiceData) : ℚ :=
  renderedSubtotal d * taxRate

/-- The grand total the rich render function displays. -/
def renderedGrandTotal (d : InvoiceData) : ℚ :=
  renderedSubtotal d + renderedTaxAmount d

/-- Totals block of the rich variant: subtotal line, tax line, and the
highlighted grand-total row.  Takes the record after the totalAmount
defaulting at the top of the function. -/
def totalsPrims (d : InvoiceData) : List Prim :=
  [ .text (tableLeft + 280 + 70 + 10) (totalsStartY d) "Subtotal:" 10 .bold (rgb 0.2 0.2 0.2),
    .text (tableLeft + 280 + 70 + 80 + 10) (totalsStartY d)
      ("$" ++ toFixed2 (d.totalAmount.getD 0)) 10 .regular (rgb 0.2 0.2 0.2),
    .text (tableLeft + 280 + 70 + 10) (totalsStartY d - 20) "Tax (5%):" 10 .bold (rgb 0.2 0.2 0.2),
    .text (tableLeft + 280 + 70 + 80 + 10) (totalsStartY d - 20)
      ("$" ++ toFixed2 (d.totalAmount.getD 0 * taxRate)) 10 .regular (rgb 0.2 0.2 0.2),
    .rect (tableLeft + 280 + 70) (totalsStartY d - 40 - 15 + 2)
      (tableRight - (tableLeft + 280 + 70)) 30 (rgb 0.2 0.2 0.2) none none,
    .text (tableLeft + 280 + 70 + 10) (totalsStartY d - 40) "TOTAL:" 12 .bold (rgb 1 1 1),
    .text (tableLeft + 280 + 70 + 80 + 10) (totalsStartY d - 40)
      ("$" ++ toFixed2 (d.totalAmount.getD 0 + d.totalAmount.getD 0 * taxRate)) 12 .bold (rgb 1 1 1) ]

/-- Payment-information block of the rich variant, flowing below the
grand-total row. -/
def paymentInfoPrims (d : InvoiceData) : List Prim :=
  [ .text tableLeft (totalsStartY d - 90) "PAYMENT INFORMATION" 12 .bold (rgb 0.2 0.2 0.2),
    .text (tableLeft + 10) (totalsStartY d - 110) "Please make payment via bank transfer to:" 10 .regular (rgb 0 0 0),
    .text (tableLeft + 10) (totalsStartY d - 130) "Bank Name:" 10 .bold (rgb 0 0 0),
    .text (tableLeft + 100) (totalsStartY d - 130) "International Bank" 10 .regular (rgb 0 0 0),
    .text (tableLeft + 10) (totalsStartY d - 145) "Account Name:" 10 .bold (rgb 0 0 0),
    .text (tableLeft + 100) (totalsStartY d - 145) d.companyName 10 .regular (rgb 0 0 0),
    .text (tableLeft + 10) (totalsStartY d - 160) "Account Number:" 10 .bold (rgb 0 0 0),
    .text (tableLeft + 100) (totalsStartY d - 160) "1234567890" 10 .regular (rgb 0 0 0) ]

/-- The local calendar date read from `new Date()` at render time: the
only render input besides the record and the environment zone. -/
structure RenderDate where
  year : Int
  month0 : Nat
  day : Nat
deriving DecidableEq, Repr

/-- The current-date string of the footer, assembled from the local
fields of `new Date()` with the same fixed month table. -/
def currentDateText (now : RenderDate) : String :=
  monthName now.month0 ++ " " ++ toString now.day ++ ", " ++ toString now.year

/-- The generation-date footer text run: the single primitive of the rich
render that depends on the render-time clock. -/
def generatedOnPrim (now : RenderDate) : Prim :=
  .text (pageWidth / 2 - 100) 50 ("Invoice generated on " ++ currentDateText now) 8 .regular (rgb 0.4 0.4 0.4)

/-- The fixed payment-terms footer text run. -/
def paymentTermsPrim : Prim :=
  .text (pageWidth / 2 - 120) (50 - 15) "Payment terms: Due within 30 days of issue" 8 .regular (rgb 0.4 0.4 0.4)

/-- The clock-independent footer primitives: divider line and thank-you
line, anchored at the fixed footer position 50. -/
def footerFixedPrims : List Prim :=
  [ .line 50 (50 + 30) (pageWidth - 50) (50 + 30) 1 (rgb 0.8 0.8 0.8),
    .text (pageWidth / 2 - 80) (50 + 15) "Thank you for your business!" 10 .bold (rgb 0.4 0.4 0.4) ]

/-- The ordered primitive sequence emitted by the rich `generateInvoice`
(the variant with status badge and payment information), as a function of
the environment zone, the render-time local date, and the input record.
The record is first subjected to the totalAmount defaulting of the first
statement of the function. -/
def generateInvoicePrims (env : Int) (now : RenderDate) (d0 : InvoiceData) : List Prim :=
  headerPrims
    ++ companyPrims (applyTotalDefault d0)
    ++ metaPrims env (applyTotalDefault d0)
    ++ [headerDividerPrim]
    ++ clientPrims (applyTotalDefault d0)
    ++ tableHeaderPrims
    ++ tableRowPrims (applyTotalDefault d0).lineItems
    ++ totalsPrims (applyTotalDefault d0)
    ++ paymentInfoPrims (applyTotalDefault d0)
    ++ footerFixedPrims
    ++ [generatedOnPrim now, paymentTermsPrim]

/-- Everything the rich render emits except the final generation-date and
payment-terms primitives: a function of the record and environment only. -/
def invoiceBodyPrims (env : Int) (d0 : InvoiceData) : List Prim :=
  headerPrims
    ++ companyPrims (applyTotalDefault d0)
    ++ metaPrims env (applyTotalDefault d0)
    ++ [headerDividerPrim]
    ++ clientPrims (applyTotalDefault d0)
    ++ tableHeaderPrims
    ++ tableRowPrims (applyTotalDefault d0).lineItems
    ++ totalsPrims (applyTotalDefault d0)
    ++ paymentInfoPrims (applyTotalDefault d0)
    ++ footerFixedPrims

/-- The full effect of one call of the rich render on the caller: the
post-call state of the caller record (mutated by the totalAmount
defaulting) together with the emitted primitive sequence. -/
def generateInvoiceRun (env : Int) (now : RenderDate) (d : InvoiceData) :
    InvoiceData × List Prim :=
  (applyTotalDefault d, generateInvoicePrims env now d)

/-- The notes condition of the simple render function:
`data.notes && data.notes.trim() !== ""`, where an absent or empty string
is falsy and a whitespace-only string trims to empty. -/
def hasNotes (notes : Option String) : Bool :=
  match notes with
  | none => false
  | some s => if s = "" then false else jsTrim s != ""

/-- The notes lines stacked downward from `y` in steps of 15 units. -/
def notesLinesPrims : List String → ℚ → List Prim
  | [], _ => []
  | s :: rest, y =>
    Prim.text (tableLeft + 10) y s 10 .regular (rgb 0 0 0) :: notesLinesPrims rest (y - 15)

/-- The conditional notes sub-block of the simple render function, with
`y` the running cursor position just after the total row: when the notes
condition fails, nothing is drawn and no vertical space is consumed. -/
def notesBlockPrims (notes : Option String) (y : ℚ) : List Prim :=
  if hasNotes notes then
    match notes with
    | none => []
    | some s =>
      Prim.text tableLeft (y - 20) "NOTES:" 12 .bold (rgb 0.4 0.4 0.4)
        :: notesLinesPrims (jsSplit s '\n') (y - 40)
  else []

/-- The invoice-meta column of the simple variant: invoice number and the
two formatted dates, with no status indicator. -/
def simpleMetaPrims (env : Int) (d : InvoiceData) : List Prim :=
  [ .text (pageWidth - 200) (pageHeight - 90) ("Invoice #: " ++ d.invoiceNumber) 10 .regular (rgb 0 0 0),
    .text (pageWidth - 200) (pageHeight - 105) ("Date: " ++ formatDate env d.invoiceDate) 10 .regular (rgb 0 0 0),
    .text (pageWidth - 200) (pageHeight - 120) ("Due Date: " ++ formatDate env d.dueDate) 10 .regular (rgb 0 0 0) ]

/-- Table header of the simple variant: light header rectangle and dark
column labels. -/
def simpleTableHeaderPrims : List Prim :=
  [ .rect tableLeft (tableTop - 25) (tableRight - tableLeft) 25 (rgb 0.9 0.9 0.9)
      (some (rgb 0.8 0.8 0.8)) (some 1),
    .text (tableLeft + 10) (tableTop - 15) "Description" 12 .bold (rgb 0.2 0.2 0.2),
    .text (tableLeft + 280 + 10) (tableTop - 15) "Quantity" 12 .bold (rgb 0.2 0.2 0.2),
    .text (tableLeft + 280 + 70 + 10) (tableTop - 15) "Unit Price" 12 .bold (rgb 0.2 0.2 0.2),
    .text (tableLeft + 280 + 70 + 80 + 10) (tableTop - 15) "Amount" 12 .bold (rgb 0.2 0.2 0.2) ]

/-- Total row of the simple variant: light rectangle, "Total:" label, and
the stored total amount (no recomputation, no defaulting). -/
def simpleTotalPrims (d : InvoiceData) : List Prim :=
  [ .rect (tableLeft + 280 + 70) (totalsStartY d - 15 + 2)
      (tableRight - (tableLeft + 280 + 70)) 30 (rgb 0.95 0.95 0.95) none none,
    .text (tableLeft + 280 + 70 + 10) (totalsStartY d) "Total:" 12 .bold (rgb 0 0 0),
    .text (tableLeft + 280 + 70 + 80 + 10) (totalsStartY d)
      ("$" ++ toFixed2 (d.totalAmount.getD 0)) 12 .bold (rgb 0.2 0.2 0.2) ]

/-- The running cursor position after the total row of the simple
variant, where the notes sub-block begins. -/
def simpleNotesY (d : InvoiceData) : ℚ :=
  totalsStartY d - 30

/-- The closing thank-you line of the simple variant, at a fixed
position. -/
def simpleThankYouPrim : Prim :=
  .text (pageWidth / 2 - 80) 50 "Thank you for your business!" 10 .regular (rgb 0.4 0.4 0.4)

/-- The ordered primitive sequence of the simple `generateInvoice` of the
server actions module: title, company block, invoice-meta block (no
status badge), divider, client block, table, single total row, the
conditional notes sub-block, and the thank-you line. -/
def simpleGenerateInvoicePrims (env : Int) (d : InvoiceData) : List Prim :=
  Prim.text 50 (pageHeight - 50) "INVOICE" 24 .bold (rgb 0.2 0.2 0.2)
    :: (companyPrims d
      ++ simpleMetaPrims env d
      ++ [headerDividerPrim]
      ++ clientPrims d
      ++ simpleTableHeaderPrims
      ++ tableRowPrims d.lineItems
      ++ simpleTotalPrims d
      ++ notesBlockPrims d.notes (simpleNotesY d)
      ++ [simpleThankYouPrim])

/-- A sample line item used by concrete instances. -/
def exItem : LineItem := ⟨"Consulting", 2, 100⟩

/-- A sample invoice record: one line item of quantity 2 at unit price
100, one-line addresses, and the optional fields absent. -/
def exBase : InvoiceData :=
  { invoiceNumber := "INV-1", invoiceDate := .dateOnly 2024 1 5, dueDate := .dateOnly 2024 2 5,
    companyName := "Acme", companyAddress := "1 Road", companyEmail := "billing@acme.example",
    companyPhone := "555-0100", clientName := "Client", clientAddress := "2 Road",
    clientEmail := "client@client.example", lineItems := [exItem] }

/-- The sample record with a caller-supplied total amount of 999,
disagreeing with the line-item sum of 200. -/
def exSupplied : InvoiceData := { exBase with totalAmount := some 999 }

/-- The sample record with status "paid". -/
def exPaid : InvoiceData := { exBase with status := some "paid" }

/-- The sample record with a two-line company address. -/
def exMoreLines : InvoiceData := { exBase with companyAddress := "1 Road\nSuite 5" }

/-- The sample record with a three-line company address. -/
def exThreeLines : InvoiceData := { exBase with companyAddress := "Unit 9\n1 Road\nBigtown" }

/-- The sample record with whitespace-only notes. -/
def exBlankNotes : InvoiceData := { exBase with notes := some "   " }

/-- Two banding rectangles agree exactly when their row baselines agree. -/
lemma band_eq_iff (q y : ℚ) : bandRectPrim q = bandRectPrim y ↔ q = y := by
  constructor
  · intro h
    have h2 := congrArg (fun p => match p with | Prim.rect _ yy _ _ _ _ _ => yy | _ => (0 : ℚ)) h
    simp only [bandRectPrim] at h2
    linarith
  · intro h
    rw [h]

/-- A banding rectangle occurs among the primitives of one row exactly
when the row index is even and the baselines agree. -/
lemma band_mem_rowPrims (item : LineItem) (i : Nat) (y q : ℚ) :
    bandRectPrim q ∈ rowPrims item i y ↔ i % 2 = 0 ∧ q = y := by
  unfold rowPrims
  by_cases hi : i % 2 = 0 <;>
    simp [hi, band_eq_iff, bandRectPrim]

/-- Characterization of the banding rectangles among the rows emitted
from index `i` at baseline `y`: exactly one per even absolute index, at
the baseline 25 units per row below the start. -/
lemma band_mem_rowsFrom (items : List LineItem) : ∀ (i : Nat) (y q : ℚ),
    bandRectPrim q ∈ rowsFrom items i y ↔
      ∃ j : Nat, j < items.length ∧ (i + j) % 2 = 0 ∧ q = y - 25 * (j : ℚ) := by
  induction items with
  | nil =>
    intro i y q
    simp [rowsFrom]
  | cons item rest ih =>
    intro i y q
    simp only [rowsFrom, List.mem_append, band_mem_rowPrims, ih, List.length_cons]
    constructor
    · rintro (⟨he, rfl⟩ | ⟨j, hj, hpar, rfl⟩)
      · exact ⟨0, by omega, by omega, by push_cast; ring⟩
      · exact ⟨j + 1, by omega, by omega, by push_cast; ring⟩
    · rintro ⟨j, hj, hpar, rfl⟩
      cases j with
      | zero => exact Or.inl ⟨by omega, by push_cast; ring⟩
      | succ j => exact Or.inr ⟨j, by omega, by omega, by push_cast; ring⟩

/-- Stacked line rendering distributes over list append, with the second
part starting at the index after the first. -/
lemma stackedTextPrims_append (x b : ℚ) (l1 l2 : List String) : ∀ i : Nat,
    stackedTextPrims x b (l1 ++ l2) i =
      stackedTextPrims x b l1 i ++ stackedTextPrims x b l2 (i + l1.length) := by
  induction l1 with
  | nil =>
    intro i
    simp [stackedTextPrims]
  | cons s rest ih =>
    intro i
    simp only [List.cons_append, stackedTextPrims]
    rw [List.append_eq, ih (i + 1),
      show i + 1 + rest.length = i + (rest.length + 1) by omega]
    simp

/-- Stacked rendering of a single line. -/
lemma stackedTextPrims_single (x b : ℚ) (s : String) (i : Nat) :
    stackedTextPrims x b [s] i = [Prim.text x (b - (i : ℚ) * 15) s 10 .regular (rgb 0 0 0)] := by
  simp [stackedTextPrims]

/-- Changing the company address commutes with the totalAmount
defaulting, which reads only other fields. -/
lemma applyTotalDefault_companyAddress (d : InvoiceData) (a2 : String) :
    applyTotalDefault { d with companyAddress := a2 } =
      { applyTotalDefault d with companyAddress := a2 } := by
  unfold applyTotalDefault
  by_cases hn : d.totalAmount = none <;> simp [hn]

/-- C1 (amended): the rendered subtotal equals the left-to-right line-item
sum only when the record carries no totalAmount; when the caller supplies
a totalAmount, that value is rendered as the subtotal instead.  The
rendered tax amount always equals subtotal times 0.05 and the rendered
grand total always equals subtotal times 1.05, exactly in the rational
model. -/
theorem totals_correctness (d : InvoiceData) :
    (d.totalAmount = none → renderedSubtotal d = lineItemsTotal d.lineItems) ∧
    (∀ t : ℚ, d.totalAmount = some t → renderedSubtotal d = t) ∧
    renderedTaxAmount d = renderedSubtotal d * (5 / 100) ∧
    renderedGrandTotal d = renderedSubtotal d * (105 / 100) := by
  refine ⟨?_, ?_, ?_, ?_⟩
  · intro h
    simp [renderedSubtotal, applyTotalDefault, h]
  · intro t h
    simp [renderedSubtotal, applyTotalDefault, h]
  · rw [renderedTaxAmount, taxRate]
    norm_num
  · rw [renderedGrandTotal, renderedTaxAmount, taxRate]
    ring_nf

/-- Witness for C1: on the sample record without a stored totalAmount,
the rendered subtotal is the line-item sum and the grand total carries
the 5 percent tax. -/
theorem totals_correctness_witness :
    exBase.totalAmount = none ∧ renderedSubtotal exBase = lineItemsTotal exBase.lineItems ∧
      renderedGrandTotal exBase = renderedSubtotal exBase * (105 / 100) :=
  ⟨rfl, (totals_correctness exBase).1 rfl, (totals_correctness exBase).2.2.2⟩

/-- Counterexample for C1 as stated: with a caller-supplied totalAmount of
999 next to line items summing to 200, the rendered subtotal is 999, not
the line-item sum — the rendering is not independent of the supplied
totalAmount. -/
theorem totals_counterexample :
    renderedSubtotal exSupplied = 999 ∧ lineItemsTotal exSupplied.lineItems = 200 ∧
      (999 : ℚ) ≠ 200 := by
  refine ⟨?_, ?_, by norm_num⟩
  · simp [renderedSubtotal, applyTotalDefault, exSupplied]
  · norm_num [lineItemsTotal, exSupplied, exBase, exItem, List.foldl]

/-- C2 (amended): the primitive sequence of the rich render splits into a
body that depends only on the record and the environment zone, followed by
the generation-date primitive (the only clock-dependent primitive) and the
fixed payment-terms primitive.  In particular two renders of the same
record under the same zone and the same render-time date are identical. -/
theorem render_clock_split (env : Int) (now : RenderDate) (d : InvoiceData) :
    generateInvoicePrims env now d =
      invoiceBodyPrims env d ++ [generatedOnPrim now, paymentTermsPrim] := by
  simp [generateInvoicePrims, invoiceBodyPrims]

/-- Counterexample for C2 as stated: the same record rendered on two
different render-time dates yields different primitive sequences, so the
output does not depend on the input record alone. -/
theorem render_clock_counterexample :
    generateInvoicePrims 0 ⟨2024, 0, 1⟩ exBase ≠ generateInvoicePrims 0 ⟨2024, 0, 2⟩ exBase := by
  intro h
  have h2 := congrArg (fun l => (l.map textOf).dropLast.getLast?) h
  exact absurd h2 (by decide)

/-- C3: a status that uppercases to PAID yields the green badge color,
every other enumerated status (draft, sent, overdue, cancelled) yields the
red badge color, the badge text is the uppercased stored status, and in
the emitted order the badge rectangle immediately precedes the badge
text. -/
theorem status_badge_classification (env : Int) (d : InvoiceData) (s : String)
    (h : d.status = some s) :
    (jsToUpper s = "PAID" → statusColor d.status = rgb 0.2 0.7 0.2) ∧
    (s ∈ (["draft", "sent", "overdue", "cancelled"] : List String) →
      statusColor d.status = rgb 0.8 0.2 0.2) ∧
    (jsToUpper s ≠ "" → statusDisplay d.status = jsToUpper s) ∧
    metaPrims env d = metaPrefixPrims env d ++ [statusRectPrim d, statusTextPrim d] := by
  refine ⟨?_, ?_, ?_, by simp [metaPrims, metaPrefixPrims]⟩
  · intro hp
    have hd : statusDisplay (some s) = "PAID" := by
      simp only [statusDisplay, hp]
      rw [if_neg (by decide : ¬("PAID" = ("" : String)))]
    rw [h]
    unfold statusColor
    rw [hd, if_pos rfl]
  · intro hs
    have hdisp : statusDisplay (some s) ≠ "PAID" := by
      fin_cases hs <;> decide
    rw [h]
    unfold statusColor
    rw [if_neg hdisp]
  · intro hne
    simp only [h, statusDisplay, if_neg hne]

/-- Witness for C3: the sample record with status "paid" gets the green
badge color. -/
theorem status_badge_classification_witness :
    exPaid.status = some "paid" ∧ statusColor exPaid.status = rgb 0.2 0.7 0.2 :=
  ⟨rfl, (status_badge_classification 0 exPaid "paid" rfl).1 (by decide)⟩

/-- C4: for any line-item list and any row index below its length, the
banding rectangle of that row occurs in the emitted table rows exactly
when the zero-based index is even; in particular a one-item table has its
single row banded. -/
theorem row_banding_parity (items : List LineItem) (i : Nat) (h : i < items.length) :
    (bandRectPrim (tableTop - 45 - 25 * (i : ℚ)) ∈ tableRowPrims items) ↔ i % 2 = 0 := by
  rw [tableRowPrims, band_mem_rowsFrom]
  constructor
  · rintro ⟨j, hj, hpar, heq⟩
    have hc : (i : ℚ) = (j : ℚ) := by linarith
    have hij : i = j := by exact_mod_cast hc
    omega
  · intro hi
    exact ⟨i, h, by omega, by ring⟩

/-- Witness for C4: the single row of a one-item table is banded. -/
theorem row_banding_parity_witness :
    0 < ([exItem] : List LineItem).length ∧
      ((bandRectPrim (tableTop - 45 - 25 * ((0 : Nat) : ℚ)) ∈ tableRowPrims [exItem]) ↔
        0 % 2 = 0) :=
  ⟨by decide, row_banding_parity [exItem] 0 (by decide)⟩

/-- C5 (amended): appending one line to the company address moves the
company email and phone lines down by exactly one line height of 15
units and inserts the new address line exactly where the email line used
to sit, while the client block, the invoice-meta block, the line-item
table rows, the totals block and the payment-information block are
unchanged — the code positions every block below the company block at
fixed coordinates, so nothing below shifts. -/
theorem address_line_shift (env : Int) (d : InvoiceData) (a2 L : String)
    (hsplit : jsSplit a2 '\n' = jsSplit d.companyAddress '\n' ++ [L]) :
    companyEmailY { d with companyAddress := a2 } = companyEmailY d - 15 ∧
    companyPhoneY { d with companyAddress := a2 } = companyPhoneY d - 15 ∧
    stackedTextPrims 50 (pageHeight - 110) (companyAddressLines { d with companyAddress := a2 }) 0 =
      stackedTextPrims 50 (pageHeight - 110) (companyAddressLines d) 0
        ++ [Prim.text 50 (companyEmailY d) L 10 .regular (rgb 0 0 0)] ∧
    clientPrims { d with companyAddress := a2 } = clientPrims d ∧
    metaPrims env { d with companyAddress := a2 } = metaPrims env d ∧
    tableRowPrims ({ d with companyAddress := a2 } : InvoiceData).lineItems =
      tableRowPrims d.lineItems ∧
    totalsPrims (applyTotalDefault { d with companyAddress := a2 }) =
      totalsPrims (applyTotalDefault d) ∧
    paymentInfoPrims (applyTotalDefault { d with companyAddress := a2 }) =
      paymentInfoPrims (applyTotalDefault d) := by
  have hlen : (companyAddressLines { d with companyAddress := a2 }).length =
      (companyAddressLines d).length + 1 := by
    simp [companyAddressLines, hsplit]
  refine ⟨?_, ?_, ?_, rfl, rfl, rfl, ?_, ?_⟩
  · rw [companyEmailY, companyEmailY, hlen]
    push_cast
    ring
  · rw [companyPhoneY, companyPhoneY, hlen]
    push_cast
    ring
  · rw [show companyAddressLines { d with companyAddress := a2 } = companyAddressLines d ++ [L]
        from hsplit]
    rw [stackedTextPrims_append, stackedTextPrims_single, companyEmailY]
    simp
  · rw [applyTotalDefault_companyAddress]
    rfl
  · rw [applyTotalDefault_companyAddress]
    rfl

/-- Witness for C5: extending the sample one-line address by a second
line moves the company email line down by exactly 15 units. -/
theorem address_line_shift_witness :
    jsSplit "1 Road\nSuite 5" '\n' = jsSplit exBase.companyAddress '\n' ++ ["Suite 5"] ∧
      companyEmailY { exBase with companyAddress := "1 Road\nSuite 5" } =
        companyEmailY exBase - 15 :=
  ⟨by decide, (address_line_shift 0 exBase "1 Road\nSuite 5" "Suite 5" (by decide)).1⟩

/-- Counterexample for C5 as stated: adding an address line leaves the
client block primitives literally unchanged — in particular the BILL TO
label, a primitive of a block below the company block, keeps its vertical
position instead of moving down by 15 units. -/
theorem address_monotonicity_counterexample :
    clientPrims exMoreLines = clientPrims exBase ∧
    (companyAddressLines exMoreLines).length = (companyAddressLines exBase).length + 1 ∧
    totalsStartY exMoreLines = totalsStartY exBase ∧
    Prim.text 50 (pageHeight - 180) "BILL TO:" 12 .bold (rgb 0.4 0.4 0.4) ∈ clientPrims exBase := by
  refine ⟨rfl, by decide, rfl, ?_⟩
  show _ ∈ Prim.text 50 (pageHeight - 180) "BILL TO:" 12 .bold (rgb 0.4 0.4 0.4) :: _
  exact List.mem_cons_self _ _

/-- C6: with a three-line company address the email line sits at the
address base minus 3 times 15 units and the phone line one further line
height below; in general the trailing content of each address block sits
at the block base minus the number of address lines times 15. -/
theorem address_trailing_offsets (d : InvoiceData)
    (h : (companyAddressLines d).length = 3) :
    companyEmailY d = (pageHeight - 110) - 3 * 15 ∧
    companyPhoneY d = (pageHeight - 110) - 3 * 15 - 15 ∧
    companyEmailY d = pageHeight - 110 - ((companyAddressLines d).length : ℚ) * 15 ∧
    clientEmailY d = pageHeight - 215 - ((clientAddressLines d).length : ℚ) * 15 := by
  refine ⟨?_, ?_, rfl, rfl⟩
  · rw [companyEmailY, h]
    push_cast
    ring
  · rw [companyPhoneY, h]
    push_cast
    ring

/-- Witness for C6: the sample record with a three-line company address
has its email line 45 units below the address base. -/
theorem address_trailing_offsets_witness :
    (companyAddressLines exThreeLines).length = 3 ∧
      companyEmailY exThreeLines = (pageHeight - 110) - 3 * 15 :=
  ⟨by decide, (address_trailing_offsets exThreeLines (by decide)).1⟩

/-- C7 (amended): the rich render returns the caller record unmodified
exactly when the record carries a totalAmount; when totalAmount is
absent, the render writes the computed line-item sum into the callers
totalAmount field — a visible input mutation.  Line items are never
modified, and the pure model carries no cross-call state. -/
theorem render_input_mutation (env : Int) (now : RenderDate) (d : InvoiceData) :
    (generateInvoiceRun env now d).1 = applyTotalDefault d ∧
    (d.totalAmount ≠ none → (generateInvoiceRun env now d).1 = d) ∧
    (d.totalAmount = none →
      (generateInvoiceRun env now d).1 =
        { d with totalAmount := some (lineItemsTotal d.lineItems) }) ∧
    (generateInvoiceRun env now d).1.lineItems = d.lineItems := by
  refine ⟨rfl, ?_, ?_, ?_⟩
  · intro h
    simp [generateInvoiceRun, applyTotalDefault, h]
  · intro h
    simp [generateInvoiceRun, applyTotalDefault, h]
  · rcases hd : d.totalAmount with _ | t <;> simp [generateInvoiceRun, applyTotalDefault, hd]

/-- Witness for C7: a record with a stored totalAmount passes through the
render unchanged. -/
theorem render_input_mutation_witness :
    exSupplied.totalAmount ≠ none ∧
      (generateInvoiceRun 0 ⟨2024, 0, 1⟩ exSupplied).1 = exSupplied :=
  ⟨by decide, (render_input_mutation 0 ⟨2024, 0, 1⟩ exSupplied).2.1 (by decide)⟩

/-- Counterexample for C7 as stated: rendering the sample record, whose
totalAmount is absent, changes the record — after the call its
totalAmount field is populated. -/
theorem render_input_mutation_counterexample :
    (generateInvoiceRun 0 ⟨2024, 0, 1⟩ exBase).1 ≠ exBase := by
  intro h
  have h2 := congrArg InvoiceData.totalAmount h
  simp [generateInvoiceRun, applyTotalDefault, exBase] at h2

/-- C8 (amended): formatDate renders the local calendar fields of the
parsed value as month name, day and year with the fixed English table and
unpadded decimal integers, and its result depends only on the local
calendar day of the parsed instant.  It is not independent of the time of
day and timezone carried by the input: an offset that shifts the instant
across a local midnight changes the rendered date. -/
theorem formatDate_local_fields (env : Int) (v w : DateInput)
    (h : localDayNumber env v = localDayNumber env w) :
    formatDate env v = formatDate env w ∧
    formatDate env v = formatCivil (civilFromDays (localDayNumber env v)) :=
  ⟨by rw [formatDate, formatDate, h], rfl⟩

/-- Witness for C8: two timestamps of the same day at hours 8 and 20 fall
on the same local day and format identically. -/
theorem formatDate_local_fields_witness :
    localDayNumber 0 (.timestamp 2024 1 5 8 0 0 (some 0)) =
        localDayNumber 0 (.timestamp 2024 1 5 20 0 0 (some 0)) ∧
      formatDate 0 (.timestamp 2024 1 5 8 0 0 (some 0)) =
        formatDate 0 (.timestamp 2024 1 5 20 0 0 (some 0)) :=
  ⟨by decide,
    (formatDate_local_fields 0 (.timestamp 2024 1 5 8 0 0 (some 0))
      (.timestamp 2024 1 5 20 0 0 (some 0)) (by decide)).1⟩

/-- Counterexample for C8 as stated: two timestamps carrying the same
calendar date January 5, 2024 in the UTC+2 zone, differing only in their
time of day, format to different strings in a UTC environment — the
result is not independent of the time of day and timezone carried by the
input. -/
theorem formatDate_timezone_counterexample :
    formatDate 0 (.timestamp 2024 1 5 0 30 0 (some 120)) = "January 4, 2024" ∧
    formatDate 0 (.timestamp 2024 1 5 23 30 0 (some 120)) = "January 5, 2024" ∧
    ("January 4, 2024" : String) ≠ "January 5, 2024" :=
  ⟨by decide, by decide, by decide⟩

/-- Concrete check that a date-only input in a UTC environment renders as
the written calendar date in the specified format. -/
theorem formatDate_dateOnly_example :
    formatDate 0 (.dateOnly 2024 1 5) = "January 5, 2024" := by decide

/-- C9: when the notes field is absent, empty, or whitespace-only, the
simple render emits no notes sub-block at all and its full primitive
sequence equals that of the record with notes removed — no label, no
notes lines, and no vertical space reserved, so everything after the
totals block is positioned as if notes were absent. -/
theorem zero_notes_block (env : Int) (d : InvoiceData)
    (h : d.notes = none ∨ ∃ s, d.notes = some s ∧ jsTrim s = "") :
    notesBlockPrims d.notes (simpleNotesY d) = [] ∧
    simpleGenerateInvoicePrims env d = simpleGenerateInvoicePrims env { d with notes := none } := by
  have hb : hasNotes d.notes = false := by
    rcases h with h | ⟨s, hs, ht⟩
    · rw [h]
      rfl
    · rw [hs]
      unfold hasNotes
      by_cases he : s = ""
      · simp [he]
      · simp [he, ht]
  have h0 : notesBlockPrims d.notes (simpleNotesY d) = [] := by
    unfold notesBlockPrims
    rw [hb]
    rfl
  refine ⟨h0, ?_⟩
  unfold simpleGenerateInvoicePrims
  rw [h0]
  rfl

/-- Witness for C9: the sample record with whitespace-only notes emits no
notes sub-block. -/
theorem zero_notes_block_witness :
    (exBlankNotes.notes = none ∨ ∃ s, exBlankNotes.notes = some s ∧ jsTrim s = "") ∧
      notesBlockPrims exBlankNotes.notes (simpleNotesY exBlankNotes) = [] :=
  ⟨Or.inr ⟨"   ", rfl, by decide⟩,
    (zero_notes_block 0 exBlankNotes (Or.inr ⟨"   ", rfl, by decide⟩)).1⟩

/-- C10: when the status field is absent the rich render still draws the
badge with the literal text UNPAID — a value outside the five-status
enumeration and not the uppercasing of any of its members — and fills the
badge with the red unpaid color. -/
theorem missing_status_badge (d : InvoiceData) (h : d.status = none) :
    statusDisplay d.status = "UNPAID" ∧
    statusColor d.status = rgb 0.8 0.2 0.2 ∧
    statusTextPrim d =
      Prim.text (pageWidth - 145) (pageHeight - 135) "UNPAID" 10 .bold (rgb 1 1 1) ∧
    "UNPAID" ∉ (["draft", "sent", "paid", "overdue", "cancelled"] : List String) ∧
    ∀ s ∈ (["draft", "sent", "paid", "overdue", "cancelled"] : List String),
      jsToUpper s ≠ "UNPAID" := by
  have hd : statusDisplay d.status = "UNPAID" := by
    rw [h]
    rfl
  refine ⟨hd, ?_, ?_, by decide, ?_⟩
  · unfold statusColor
    rw [hd, if_neg (by decide : ¬(("UNPAID" : String) = "PAID"))]
  · unfold statusTextPrim
    rw [hd]
  · intro s hs
    fin_cases hs <;> decide

/-- Witness for C10: the sample record, whose status is absent, displays
the badge text UNPAID. -/
theorem missing_status_badge_witness :
    exBase.status = none ∧ statusDisplay exBase.status = "UNPAID" :=
  ⟨rfl, (missing_status_badge exBase rfl).1⟩
